import Mathlib

/-!
Verification of the urban-price-radar frontend logic.

The definitions below are a shallow embedding of the JavaScript source:

* `src/frontend/src/App.jsx` — dataset fetch state machine, `filteredAreas`
  projection, `formatUpdateDate`, `DataInfo`;
* `src/frontend/src/components/PriceBadge.jsx` — `formatPrice`, `shouldShow`,
  `showAsDot`;
* `src/frontend/src/components/SearchBar.jsx` — the suggestions effect and the
  `Filters` component (`handleBudgetClick`, the mode toggle).

Currency amounts are integers (the dataset stores whole rupees), so prices are
modelled as `Nat`.  JavaScript's floating-point divisions followed by
`toFixed`/`Math.round` are modelled as exact rational round-half-up, which
agrees with the JS result whenever the quotient is exactly representable in
binary64 (true of every amount/divisor pair exercised here, the divisors being
powers of ten times small constants).  `NaN` propagation from an invalid
`Date` is modelled with `Option Int` (`none` = `NaN`/Invalid Date).
-/

namespace UrbanPriceRadar

/-! ## Data model (spec §3, App.jsx) -/

/-- A price cell `{min, max, confidence}`. -/
structure PriceBand where
  min : Nat
  max : Nat
  confidence : String
deriving DecidableEq, Repr

/-- A budget preset `{min, max, label, color}` (BUY_BUDGETS / RENT_BUDGETS). -/
structure Budget where
  min : Nat
  max : Nat
  label : String
  color : String
deriving DecidableEq, Repr

/-- An `AreaRecord`.  `prices` models the nested `area[mode][propertyType]`
access: an association list keyed by mode (`"buy"`/`"rent"`), each entry an
association list keyed by property type.  `name`/`region` are kept as
character lists so the search-bar string operations can recurse on them. -/
structure Area where
  id : Nat
  name : List Char
  region : Option (List Char)
  lat : Int
  lng : Int
  zoom_level : String
  prices : List (String × List (String × PriceBand))
deriving DecidableEq, Repr

/-- `area[mode]?.[propertyType]` — resolves the price cell for the active
mode/property type, `none` when either level of the nesting is absent. -/
def getCell (a : Area) (mode propertyType : String) : Option PriceBand :=
  match a.prices.lookup mode with
  | none => none
  | some byType => byType.lookup propertyType

/-- The fetched dataset `{version, generated_at, disclaimer, areas}`. -/
structure Dataset where
  version : String
  generated_at : Option String
  disclaimer : Option String
  areas : List Area
deriving DecidableEq, Repr

/-! ## Area Projection (App.jsx `filteredAreas`, lines 71–90) -/

/-- The object produced for one area by the `filteredAreas` map.  The early
return for a missing cell is `{ ...area, visible: false, priceRange: null }`,
which carries no `withinBudget` field at all — hence `withinBudget :
Option Bool`, `none` meaning the field is absent. -/
structure ProjectedArea where
  base : Area
  visible : Bool
  priceRange : Option PriceBand
  withinBudget : Option Bool
deriving DecidableEq, Repr

/-- Body of the `priceData?.areas?.map(area => ...)` callback in
App.jsx 71–90. -/
def projectArea (mode propertyType : String) (budgetRange : Option Budget)
    (area : Area) : ProjectedArea :=
  match getCell area mode propertyType with
  | none => { base := area, visible := false, priceRange := none, withinBudget := none }
  | some prices =>
    let withinBudget : Bool :=
      match budgetRange with
      | none => true
      | some b => decide (prices.min ≤ b.max) && decide (prices.max ≥ b.min)
    { base := area, visible := withinBudget, priceRange := some prices,
      withinBudget := some withinBudget }

/-- `filteredAreas` — the projection over the whole dataset
(`priceData?.areas?.map(...) || []`). -/
def filteredAreas (priceData : Option Dataset) (mode propertyType : String)
    (budgetRange : Option Budget) : List ProjectedArea :=
  match priceData with
  | none => []
  | some d => d.areas.map (projectArea mode propertyType budgetRange)

/-- `visibleCount` prop of `DataInfo` (App.jsx 157). -/
def visibleCount (priceData : Option Dataset) (mode propertyType : String)
    (budgetRange : Option Budget) : Nat :=
  ((filteredAreas priceData mode propertyType budgetRange).filter
    (fun a => a.visible)).length

/-- `totalCount` prop of `DataInfo` (App.jsx 158). -/
def totalCount (priceData : Option Dataset) (mode propertyType : String)
    (budgetRange : Option Budget) : Nat :=
  (filteredAreas priceData mode propertyType budgetRange).length

/-! Concrete sample data used by the witnesses. -/

def bandA : PriceBand := ⟨8000000, 12000000, "high"⟩

def areaA : Area :=
  ⟨1, "Andheri".toList, some "Western Suburbs".toList, 19, 72, "area",
    [("buy", [("2bhk", bandA)])]⟩

def areaNoCell : Area :=
  ⟨2, "Karjat".toList, none, 18, 73, "micro", [("rent", [("1bhk", ⟨15000, 25000, "low"⟩)])]⟩

def budgetMid : Budget := ⟨5000000, 8000000, "50-80L", "#3b82f6"⟩

def datasetA : Dataset := ⟨"1", some "2025-10-01", none, [areaA, areaNoCell]⟩

/-! ## Theorems for C1 and C2 -/

/-- C1: for every AreaRecord whose price cell exists for the active
mode/property type, the projection sets `withinBudget` to `true` iff the
area's `[min,max]` band overlaps the selected budget range with inclusive
boundaries (`prices.min ≤ budgetRange.max ∧ prices.max ≥ budgetRange.min`);
and when no `budgetRange` is set, `withinBudget` is `true`. -/
theorem withinBudget_overlap (mode propertyType : String)
    (budgetRange : Option Budget) (a : Area) (p : PriceBand)
    (hcell : getCell a mode propertyType = some p) :
    (budgetRange = none →
      (projectArea mode propertyType budgetRange a).withinBudget = some true) ∧
    (∀ b : Budget, budgetRange = some b →
      ((projectArea mode propertyType budgetRange a).withinBudget = some true ↔
        (p.min ≤ b.max ∧ p.max ≥ b.min))) := by
  constructor
  · rintro rfl
    simp [projectArea, hcell]
  · rintro b rfl
    simp [projectArea, hcell]

theorem withinBudget_overlap_witness :
    getCell areaA "buy" "2bhk" = some bandA ∧
    ((projectArea "buy" "2bhk" (some budgetMid) areaA).withinBudget = some true ↔
      (bandA.min ≤ budgetMid.max ∧ bandA.max ≥ budgetMid.min)) :=
  ⟨by decide,
    (withinBudget_overlap "buy" "2bhk" (some budgetMid) areaA bandA (by decide)).2
      budgetMid rfl⟩

/-- C2: if the price cell for the active mode/property type is absent, the
projection yields `visible = false` and `priceRange = none` (a total
function — no error is raised), and the record still contributes to the
total display count (`totalCount` is the length of the full projected list);
when the cell exists, `visible` equals `withinBudget`. -/
theorem projectArea_missing_cell (mode propertyType : String)
    (budgetRange : Option Budget) (a : Area) :
    (getCell a mode propertyType = none →
      (projectArea mode propertyType budgetRange a).visible = false ∧
      (projectArea mode propertyType budgetRange a).priceRange = none) ∧
    (∀ p : PriceBand, getCell a mode propertyType = some p →
      (projectArea mode propertyType budgetRange a).withinBudget =
        some (projectArea mode propertyType budgetRange a).visible) ∧
    (∀ d : Dataset, totalCount (some d) mode propertyType budgetRange =
      d.areas.length) := by
  refine ⟨fun hnone => ?_, fun p hp => ?_, fun d => ?_⟩
  · simp [projectArea, hnone]
  · simp [projectArea, hp]
  · simp [totalCount, filteredAreas]

theorem projectArea_missing_cell_witness :
    getCell areaNoCell "buy" "2bhk" = none ∧
    ((projectArea "buy" "2bhk" none areaNoCell).visible = false ∧
      (projectArea "buy" "2bhk" none areaNoCell).priceRange = none) ∧
    totalCount (some datasetA) "buy" "2bhk" none = datasetA.areas.length :=
  ⟨by decide,
    (projectArea_missing_cell "buy" "2bhk" none areaNoCell).1 (by decide),
    (projectArea_missing_cell "buy" "2bhk" none areaNoCell).2.2 datasetA⟩

/-! ## Marker Density Resolver (PriceBadge.jsx `shouldShow` 147–171,
`showAsDot` 175–184) -/

/-- `shouldShow` (PriceBadge.jsx 147–171).  `visible` is `area.visible`,
`zoom_level` is the area's tier string, `currentZoom` the viewport zoom. -/
def shouldShow (visible : Bool) (zoom_level : String) (currentZoom : Int) : Bool :=
  if !visible then false
  else if zoom_level = "country" then decide (currentZoom < 7)
  else if zoom_level = "state" then decide (currentZoom ≥ 7) && decide (currentZoom < 10)
  else if zoom_level = "city" then decide (currentZoom < 11)
  else if zoom_level = "region" then decide (currentZoom ≥ 11)
  else if zoom_level = "area" then decide (currentZoom ≥ 11)
  else if zoom_level = "micro" then decide (currentZoom ≥ 14)
  else false

/-- `showAsDot` (PriceBadge.jsx 175–184).  Note it does not consult
`area.visible` or `shouldShow` at all — it is independent of the visibility
gate. -/
def showAsDot (zoom_level : String) (currentZoom : Int) (isHovered : Bool) : Bool :=
  if zoom_level = "city" ∨ zoom_level = "state" ∨ zoom_level = "country" then false
  else if currentZoom ≥ 14 then false
  else !isHovered

/-- C5: for a visible area, the marker is shown exactly per tier:
`country` iff `z < 7`; `state` iff `7 ≤ z < 10`; `city` iff `z < 11`;
`region` or `area` iff `z ≥ 11`; `micro` iff `z ≥ 14`; any other tier value
is never shown. -/
theorem shouldShow_tiers (z : Int) :
    (shouldShow true "country" z = true ↔ z < 7) ∧
    (shouldShow true "state" z = true ↔ 7 ≤ z ∧ z < 10) ∧
    (shouldShow true "city" z = true ↔ z < 11) ∧
    (shouldShow true "region" z = true ↔ 11 ≤ z) ∧
    (shouldShow true "area" z = true ↔ 11 ≤ z) ∧
    (shouldShow true "micro" z = true ↔ 14 ≤ z) ∧
    (∀ t : String,
      t ∉ (["country", "state", "city", "region", "area", "micro"] : List String) →
      shouldShow true t z = false) := by
  refine ⟨?_, ?_, ?_, ?_, ?_, ?_, ?_⟩
  · simp [shouldShow]
  · simp [shouldShow]
  · simp [shouldShow]
  · simp [shouldShow]
  · simp [shouldShow]
  · simp [shouldShow]
  · intro t ht
    simp only [List.mem_cons, List.not_mem_nil, or_false, not_or] at ht
    obtain ⟨h1, h2, h3, h4, h5, h6⟩ := ht
    simp [shouldShow, h1, h2, h3, h4, h5, h6]

theorem shouldShow_tiers_witness :
    ("skyline" ∉ (["country", "state", "city", "region", "area", "micro"] : List String)) ∧
    shouldShow true "skyline" 12 = false :=
  ⟨by decide, (shouldShow_tiers 12).2.2.2.2.2.2 "skyline" (by decide)⟩

/-- C9: tiers `city`, `state`, `country` always render as an expanded badge
(`showAsDot = false`); every other tier renders as a compact dot exactly when
`currentZoom < 14` and the marker is not hovered, and as an expanded badge
otherwise.  The decision takes only `(zoom_level, currentZoom, isHovered)` —
it is independent of the visibility gate. -/
theorem showAsDot_spec (t : String) (z : Int) (h : Bool) :
    ((t = "city" ∨ t = "state" ∨ t = "country") → showAsDot t z h = false) ∧
    (¬(t = "city" ∨ t = "state" ∨ t = "country") →
      (showAsDot t z h = true ↔ z < 14 ∧ h = false)) := by
  constructor
  · intro hmem
    simp [showAsDot, hmem]
  · intro hmem
    rcases h with _ | _ <;> simp [showAsDot, hmem]

theorem showAsDot_spec_witness :
    (¬(("region" : String) = "city" ∨ ("region" : String) = "state" ∨
        ("region" : String) = "country")) ∧
    (showAsDot "region" 12 false = true ↔ (12 : Int) < 14 ∧ false = false) :=
  ⟨by decide, (showAsDot_spec "region" 12 false).2 (by decide)⟩

/-! ## Marker Renderer (PriceBadge.jsx `formatPrice` 17–24) -/

/-- Round-half-up of the rational `num / den` (`den ≠ 0` in every use).
This is both JS `Math.round` and the integer chosen by `toFixed` for
non-negative arguments (ECMA-262 picks the larger candidate on ties). -/
def jsRoundRat (num den : Nat) : Nat := (num + den / 2) / den

/-- JS `(num / den).toFixed(1)`: the nearest tenth, rendered with one digit
after the decimal point. -/
def jsToFixed1 (num den : Nat) : String :=
  let n := jsRoundRat (10 * num) den
  toString (n / 10) ++ "." ++ toString (n % 10)

/-- JS `(num / den).toFixed(0)`: the nearest integer, no decimal point. -/
def jsToFixed0 (num den : Nat) : String := toString (jsRoundRat num den)

/-- `formatPrice` (PriceBadge.jsx 17–24). -/
def formatPrice (price : Nat) (isRent : Bool) : String :=
  if isRent then
    if price ≥ 100000 then "₹" ++ jsToFixed1 price 100000 ++ "L"
    else "₹" ++ toString (jsRoundRat price 1000) ++ "K"
  else if price ≥ 10000000 then "₹" ++ jsToFixed1 price 10000000 ++ "Cr"
  else "₹" ++ jsToFixed0 price 100000 ++ "L"

/-- The tiered contract exactly as the spec words it: rent ≥ 1 lakh →
lakhs to 1 decimal + "L"; other rent → thousands rounded + "K"; purchase
≥ 1 crore → crores to 1 decimal + "Cr"; other purchase → lakhs rounded, no
decimals, + "L". -/
def formatPriceSpec (amount : Nat) (isRent : Bool) : String :=
  match isRent, decide (amount ≥ 100000), decide (amount ≥ 10000000) with
  | true, true, _ => "₹" ++ jsToFixed1 amount 100000 ++ "L"
  | true, false, _ => "₹" ++ toString (jsRoundRat amount 1000) ++ "K"
  | false, _, true => "₹" ++ jsToFixed1 amount 10000000 ++ "Cr"
  | false, _, false => "₹" ++ jsToFixed0 amount 100000 ++ "L"

/-- C6: `formatPrice` satisfies the tiered formatting contract, and in
particular `formatPrice 5000000 false = "₹50L"`,
`formatPrice 125000000 false = "₹12.5Cr"`, `formatPrice 25000 true = "₹25K"`,
`formatPrice 150000 true = "₹1.5L"`. -/
theorem formatPrice_contract :
    (∀ (price : Nat) (isRent : Bool),
      formatPrice price isRent = formatPriceSpec price isRent) ∧
    formatPrice 5000000 false = "₹50L" ∧
    formatPrice 125000000 false = "₹12.5Cr" ∧
    formatPrice 25000 true = "₹25K" ∧
    formatPrice 150000 true = "₹1.5L" := by
  refine ⟨fun price isRent => ?_, by decide, by decide, by decide, by decide⟩
  rcases isRent with _ | _ <;>
    simp only [formatPrice, formatPriceSpec] <;>
    rcases h1 : decide (price ≥ 100000) with _ | _ <;>
    rcases h2 : decide (price ≥ 10000000) with _ | _ <;>
    simp_all

/-! ## Filter State (App.jsx state hooks, `Filters` component) -/

/-- The four filter hooks of `App` (App.jsx 17–20). -/
structure FilterState where
  mode : String
  propertyType : String
  budgetRange : Option Budget
  priceUnit : String
deriving DecidableEq, Repr

/-- The Buy button's click handler: `setMode('buy'); setBudgetRange(null)`
(Filters component, mode toggle). -/
def clickModeBuy (s : FilterState) : FilterState :=
  { s with mode := "buy", budgetRange := none }

/-- The Rent button's click handler: `setMode('rent'); setBudgetRange(null)`. -/
def clickModeRent (s : FilterState) : FilterState :=
  { s with mode := "rent", budgetRange := none }

/-- `handleBudgetClick` (Filters component): clicking the already-active
preset (same `min` and `max`) clears the budget filter, any other click
selects the preset.  `budgetRange?.min === budget.min` is `false` when
`budgetRange` is `null` (optional chaining yields `undefined`). -/
def handleBudgetClick (budgetRange : Option Budget) (budget : Budget) :
    Option Budget :=
  let isActive : Bool :=
    match budgetRange with
    | some r => decide (r.min = budget.min) && decide (r.max = budget.max)
    | none => false
  if isActive then none else some budget

/-- C8: from every prior filter state, clicking either mode button resets
`budgetRange` to `none` (and sets the corresponding mode), so every
mode-change transition re-establishes the invariant. -/
theorem mode_switch_resets_budget (s : FilterState) :
    (clickModeBuy s).budgetRange = none ∧ (clickModeBuy s).mode = "buy" ∧
    (clickModeRent s).budgetRange = none ∧ (clickModeRent s).mode = "rent" :=
  ⟨rfl, rfl, rfl, rfl⟩

/-- C10: clicking a budget preset `b` clears `budgetRange` exactly when the
current range already has the same `min` and `max` as `b`; otherwise (other
values, or no current range) it sets `budgetRange` to `b`. -/
theorem handleBudgetClick_toggle (budgetRange : Option Budget) (b : Budget) :
    (∀ r : Budget, budgetRange = some r → r.min = b.min → r.max = b.max →
      handleBudgetClick budgetRange b = none) ∧
    (∀ r : Budget, budgetRange = some r → (r.min ≠ b.min ∨ r.max ≠ b.max) →
      handleBudgetClick budgetRange b = some b) ∧
    (budgetRange = none → handleBudgetClick budgetRange b = some b) := by
  refine ⟨?_, ?_, ?_⟩
  · rintro r rfl h1 h2
    simp [handleBudgetClick, h1, h2]
  · rintro r rfl h
    rcases h with h | h <;> simp [handleBudgetClick, h]
  · rintro rfl
    rfl

/-- Same `min`/`max` as `budgetMid` but a different label and color: the
toggle-off compares only `min` and `max`. -/
def budgetMidAlt : Budget := ⟨5000000, 8000000, "another-label", "#000000"⟩

theorem handleBudgetClick_toggle_witness :
    ((some budgetMid : Option Budget) = some budgetMid ∧
      budgetMid.min = budgetMidAlt.min ∧ budgetMid.max = budgetMidAlt.max) ∧
    handleBudgetClick (some budgetMid) budgetMidAlt = none :=
  ⟨⟨rfl, rfl, rfl⟩,
    (handleBudgetClick_toggle (some budgetMid) budgetMidAlt).1 budgetMid rfl rfl rfl⟩

/-! ## Dataset fetch state machine (App.jsx 12–14, 53–68, 92–113) -/

/-- Outcome of one `fetch(API_URL)` round trip: a parsed dataset, or a
thrown/str-ified error message. -/
inductive FetchResult where
  | success (data : Dataset)
  | failure (message : String)
deriving DecidableEq, Repr

/-- The three `useState` hooks governing the top-level view. -/
structure AppState where
  priceData : Option Dataset
  loading : Bool
  error : Option String
deriving DecidableEq, Repr

/-- Initial hook values: `priceData = null`, `loading = true`,
`error = null`. -/
def initialAppState : AppState := ⟨none, true, none⟩

/-- `fetchPrices` (App.jsx 53–68) run to completion with outcome `r`:
`setLoading(true)`; on success `setPriceData(data)`, on failure
`setError(err.message)`; `finally setLoading(false)`.  Note that no branch
ever resets `error` to `null`. -/
def fetchPrices (s : AppState) (r : FetchResult) : AppState :=
  let s1 := { s with loading := true }
  match r with
  | .success d => { s1 with priceData := some d, loading := false }
  | .failure m => { s1 with error := some m, loading := false }

/-- The three mutually exclusive top-level renders of `App`. -/
inductive View where
  | loadingView
  | errorView
  | mainView
deriving DecidableEq, Repr

/-- The render guards (App.jsx 92–113): `if (loading) ...`,
`if (error) ...`, else the main view. -/
def render (s : AppState) : View :=
  if s.loading then .loadingView
  else if s.error.isSome then .errorView
  else .mainView

/-- C3 (refuted by the code): after a failed fetch the app is in the error
view; the retry button re-runs `fetchPrices`, but since no branch of
`fetchPrices` clears `error`, a *successful* retry still renders the error
view, not the main view. -/
theorem retry_success_stays_in_error_view :
    render (fetchPrices initialAppState (.failure "Failed to fetch price data")) =
      View.errorView ∧
    render (fetchPrices
        (fetchPrices initialAppState (.failure "Failed to fetch price data"))
        (.success datasetA)) = View.errorView ∧
    render (fetchPrices
        (fetchPrices initialAppState (.failure "Failed to fetch price data"))
        (.success datasetA)) ≠ View.mainView := by
  exact ⟨rfl, rfl, by decide⟩

/-! ## Update-date formatting (App.jsx `formatUpdateDate` 165–184,
`DataInfo` 186–205)

JavaScript `Date` semantics are modelled through an environment: `parse`
is `new Date(s).getTime()` with `none` standing for an Invalid Date (whose
time value is `NaN`); `localeFormat` is `toLocaleDateString('en-IN', ...)`
on a valid date (the `Bool` says whether the year option was included);
`getFullYear` reads the calendar year of a valid timestamp. -/

structure JsDateEnv where
  parse : String → Option Int
  localeFormat : Int → Bool → String
  getFullYear : Int → Int

/-- `Date.prototype.toLocaleDateString`: per ECMA-262 it returns the string
"Invalid Date" when the time value is `NaN` — it does not throw. -/
def jsToLocaleDateString (env : JsDateEnv) (d : Option Int) (withYear : Bool) :
    String :=
  match d with
  | none => "Invalid Date"
  | some t => env.localeFormat t withYear

/-- `formatUpdateDate` (App.jsx 165–184).  For an invalid date, `now - date`
is `NaN`, `Math.floor(NaN)` is `NaN`, and `NaN === 0`, `NaN === 1`,
`NaN < 7` are all `false`, so control falls through to
`toLocaleDateString`; `new Date(s)` never throws on a malformed string, so
the `catch` branch is unreachable for parse failures. -/
def formatUpdateDate (env : JsDateEnv) (dateString : Option String)
    (nowMs : Int) : Option String :=
  match dateString with
  | none => none
  | some s =>
    if s = "" then none
    else
      match env.parse s with
      | some t =>
        let diffDays : Int := Int.fdiv (nowMs - t) 86400000
        if diffDays = 0 then some "Today"
        else if diffDays = 1 then some "Yesterday"
        else if diffDays < 7 then some (toString diffDays ++ " days ago")
        else some (jsToLocaleDateString env (some t)
          (decide (env.getFullYear t ≠ env.getFullYear nowMs)))
      | none =>
        some (jsToLocaleDateString env none true)

/-- `DataInfo` (App.jsx 186–205) renders the "Updated …" badge iff
`formatUpdateDate` returned a truthy (non-null, non-empty) string. -/
def dataInfoShowsBadge (env : JsDateEnv) (generatedAt : Option String)
    (nowMs : Int) : Bool :=
  match formatUpdateDate env generatedAt nowMs with
  | none => false
  | some s => !(s = "")

/-- C4 (refuted by the code): for a malformed `generated_at` string (one
`new Date` cannot parse), `formatUpdateDate` does *not* return `null` — it
returns the string "Invalid Date", and `DataInfo` therefore renders an
"Updated Invalid Date" badge instead of omitting it. -/
theorem formatUpdateDate_malformed (env : JsDateEnv) (s : String) (nowMs : Int)
    (hbad : env.parse s = none) (hne : ¬s = "") :
    formatUpdateDate env (some s) nowMs = some "Invalid Date" ∧
    dataInfoShowsBadge env (some s) nowMs = true := by
  constructor
  · simp [formatUpdateDate, hbad, hne, jsToLocaleDateString]
  · simp [dataInfoShowsBadge, formatUpdateDate, hbad, hne, jsToLocaleDateString]

/-- A date environment whose parser rejects every string, standing in for
`new Date` on inputs like "not-a-date". -/
def jsDateEnvStub : JsDateEnv :=
  ⟨fun _ => none, fun _ _ => "", fun _ => 1970⟩

theorem formatUpdateDate_malformed_witness :
    (jsDateEnvStub.parse "not-a-date" = none ∧ ¬("not-a-date" : String) = "") ∧
    (formatUpdateDate jsDateEnvStub (some "not-a-date") 1760227200000 =
        some "Invalid Date" ∧
      dataInfoShowsBadge jsDateEnvStub (some "not-a-date") 1760227200000 = true) :=
  ⟨⟨rfl, by decide⟩,
    formatUpdateDate_malformed jsDateEnvStub "not-a-date" 1760227200000 rfl
      (by decide)⟩

/-! ## Search (SearchBar.jsx suggestions effect, 19–35) -/

/-- `needle` occurs at the start of `hay`. -/
def listStartsWith : List Char → List Char → Bool
  | _, [] => true
  | [], _ :: _ => false
  | c :: cs, d :: ds => decide (c = d) && listStartsWith cs ds

/-- JS `hay.includes(needle)`: `needle` occurs contiguously in `hay`. -/
def listHasSub : List Char → List Char → Bool
  | [], needle => listStartsWith [] needle
  | c :: cs, needle => listStartsWith (c :: cs) needle || listHasSub cs needle

/-- JS `String.prototype.toLowerCase` (character-wise lowering suffices for
the dataset's ASCII names). -/
def lcLower (s : List Char) : List Char := s.map Char.toLower

/-- JS `String.prototype.trim`. -/
def lcTrim (s : List Char) : List Char :=
  ((s.dropWhile Char.isWhitespace).reverse.dropWhile Char.isWhitespace).reverse

/-- The filter predicate of the suggestions effect:
`area.name.toLowerCase().includes(q) || area.region?.toLowerCase().includes(q)`
(`undefined` from the optional chain is falsy). -/
def areaMatchesQuery (q : List Char) (a : Area) : Bool :=
  listHasSub (lcLower a.name) q ||
    (match a.region with
     | some r => listHasSub (lcLower r) q
     | none => false)

/-- The suggestions effect (SearchBar.jsx 19–35): empty list for a trimmed
query shorter than 2, otherwise the matches in dataset order capped with
`slice(0, 8)`. -/
def searchSuggestions (query : List Char) (areas : List Area) : List Area :=
  if (lcTrim query).length < 2 then []
  else
    (areas.filter (areaMatchesQuery (lcLower query))).take 8

theorem listStartsWith_iff (hay needle : List Char) :
    listStartsWith hay needle = true ↔ ∃ r, hay = needle ++ r := by
  induction needle generalizing hay with
  | nil => exact ⟨fun _ => ⟨hay, rfl⟩, fun _ => by cases hay <;> rfl⟩
  | cons d ds ih =>
    cases hay with
    | nil =>
      simp [listStartsWith]
    | cons c cs =>
      simp only [listStartsWith, Bool.and_eq_true, decide_eq_true_eq, ih,
        List.cons_append, List.cons.injEq]
      constructor
      · rintro ⟨rfl, r, rfl⟩
        exact ⟨r, rfl, rfl⟩
      · rintro ⟨r, rfl, rfl⟩
        exact ⟨rfl, r, rfl⟩

theorem listHasSub_iff (hay needle : List Char) :
    listHasSub hay needle = true ↔ ∃ l r, hay = l ++ needle ++ r := by
  induction hay with
  | nil =>
    simp only [listHasSub, listStartsWith_iff]
    constructor
    · rintro ⟨r, h⟩
      exact ⟨[], r, h⟩
    · rintro ⟨l, r, h⟩
      rcases List.append_eq_nil.mp (List.append_eq_nil.mp h.symm).1 with ⟨rfl, rfl⟩
      exact ⟨r, h⟩
  | cons c cs ih =>
    simp only [listHasSub, Bool.or_eq_true, listStartsWith_iff, ih]
    constructor
    · rintro (⟨r, h⟩ | ⟨l, r, h⟩)
      · exact ⟨[], r, h⟩
      · exact ⟨c :: l, r, by simp [h]⟩
    · rintro ⟨l, r, h⟩
      cases l with
      | nil => exact Or.inl ⟨r, by simpa using h⟩
      | cons x xs =>
        simp only [List.cons_append, List.cons.injEq] at h
        exact Or.inr ⟨xs, r, h.2⟩

/-- The spec's matching notion: "contains the query case-insensitively",
expressed structurally as a contiguous-occurrence decomposition. -/
def containsCI (hay q : List Char) : Prop :=
  ∃ l r, lcLower hay = l ++ lcLower q ++ r

/-- The spec's per-record search predicate: the name or the region contains
the query case-insensitively. -/
def specMatches (a : Area) (query : List Char) : Prop :=
  containsCI a.name query ∨ ∃ r, a.region = some r ∧ containsCI r query

theorem areaMatchesQuery_iff (a : Area) (query : List Char) :
    areaMatchesQuery (lcLower query) a = true ↔ specMatches a query := by
  unfold areaMatchesQuery specMatches containsCI
  cases hr : a.region with
  | none =>
    simp [listHasSub_iff]
  | some reg =>
    simp [listHasSub_iff]

instance (a : Area) (query : List Char) : Decidable (specMatches a query) :=
  decidable_of_iff (areaMatchesQuery (lcLower query) a = true)
    (areaMatchesQuery_iff a query)

/-- C7: if the trimmed query has length < 2 the suggestion list is empty for
any dataset; otherwise the suggestions are exactly the records whose name or
region contains the query case-insensitively, in dataset order, truncated to
the first 8 matches — and in every case at most 8 suggestions are
produced. -/
theorem searchSuggestions_spec (query : List Char) (areas : List Area) :
    ((lcTrim query).length < 2 → searchSuggestions query areas = []) ∧
    (2 ≤ (lcTrim query).length →
      searchSuggestions query areas =
        (areas.filter (fun a => decide (specMatches a query))).take 8) ∧
    (searchSuggestions query areas).length ≤ 8 := by
  have hfilter : areas.filter (areaMatchesQuery (lcLower query)) =
      areas.filter (fun a => decide (specMatches a query)) := by
    apply List.filter_congr
    intro a _
    have hiff := areaMatchesQuery_iff a query
    by_cases hs : specMatches a query
    · simp [hs, hiff.mpr hs]
    · have hfalse : areaMatchesQuery (lcLower query) a = false :=
        Bool.eq_false_iff.mpr (fun hc => hs (hiff.mp hc))
      simp [hs, hfalse]
  refine ⟨fun h => ?_, fun h => ?_, ?_⟩
  · simp [searchSuggestions, h]
  · have h2 : ¬(lcTrim query).length < 2 := by omega
    simp only [searchSuggestions, if_neg h2, hfilter]
  · unfold searchSuggestions
    split
    · simp
    · exact le_trans (List.length_take_le 8 _) (le_refl 8)

def areaMum : Area :=
  ⟨3, "Dadar".toList, some "Mumbai City".toList, 19, 72, "region", []⟩

theorem searchSuggestions_spec_witness :
    2 ≤ (lcTrim "mumbai".toList).length ∧
    searchSuggestions "mumbai".toList [areaMum, areaA] =
      (([areaMum, areaA] : List Area).filter
        (fun a => decide (specMatches a "mumbai".toList))).take 8 ∧
    searchSuggestions "mumbai".toList [areaMum, areaA] = [areaMum] :=
  ⟨by decide,
    (searchSuggestions_spec "mumbai".toList [areaMum, areaA]).2.1 (by decide),
    by decide⟩

end UrbanPriceRadar
